import Mathlib

/-!
Verification of the LP-burn detector (main.go) against its specification.

The development shallowly embeds the burn-detection pipeline of main.go:
the verification sequence of processLPBurn, the burn- and clog-percentage
arithmetic, the alert-field formatting, and the watchLogs event loop.

Modelling conventions:
* Ethereum addresses appear in the Go code only through the string
  rendering of Address.Hex, compared after strings.ToLower; an address is
  therefore embedded as its hex string (the EIP-55 checksum casing of
  Hex is abstracted by quantifying over casings).
* The big.Float arithmetic of go-ethereum is embedded as exact rationals.
  The code creates operands with SetInt (precision at least 64 bits) and
  divides/multiplies once each, so every computed value is within
  relative error 2 to the power -53 of the exact rational value, far
  inside every tolerance the specification states.  big.Float.Quo with a
  zero divisor follows the Go semantics: x/0 is an infinity for x not
  zero, and 0/0 raises ErrNaN, i.e. a runtime panic.
* Chain reads and HTTP calls are oracle fields of an Env record; the
  pipeline records every outbound call in a trace list.
-/

/-- An Ethereum address, embedded as the hex string produced by Address.Hex. -/
abbrev Addr := String

/-- Lower-case hex digit for a nibble, as used by hex.EncodeToString in Go. -/
def hexDigit (n : Nat) : Char :=
  if n < 10 then Char.ofNat (48 + n) else Char.ofNat (97 + (n - 10))

/-- Two lower-case hex digits of one byte (hex.EncodeToString on a byte). -/
def hexByte (b : Nat) : List Char :=
  [hexDigit (b / 16 % 16), hexDigit (b % 16)]

/-- hex.EncodeToString: lower-case hex rendering of a byte slice. -/
def hexOfBytes (bs : List Nat) : String :=
  ⟨(bs.map hexByte).flatten⟩

/-- The Go function strings.ToLower, embedded character-wise (ASCII suffices here). -/
def strToLower (s : String) : String :=
  ⟨s.data.map Char.toLower⟩

/-- Helper for strContains: does needle occur as a contiguous sublist? -/
def infixAux (needle : List Char) : List Char → Bool
  | [] => needle.isEmpty
  | c :: rest => needle.isPrefixOf (c :: rest) || infixAux needle rest

/-- The Go function strings.Contains: substring occurrence, case-sensitive. -/
def strContains (s sub : String) : Bool :=
  infixAux sub.data s.data

/-- Modelled from the spec: the DEAD_ADDR configuration constant is not part
of src (the const block is empty there).  The spec calls it the canonical
dead address and says the recipient comparison is case-insensitive; since
the code compares strings.ToLower(to.Hex()) against the constant verbatim,
the constant is the lower-case rendering of the dead address. -/
def DEAD_ADDR : String := "0x000000000000000000000000000000000000dead"

/-- Modelled from the spec: the WETH_ADDR configuration constant is not part
of src.  The spec calls it the canonical wrapped-native-asset address with a
case-insensitive comparison; as with DEAD_ADDR the constant is the
lower-case rendering of the canonical WETH address. -/
def WETH_ADDR : String := "0xc02aaa39b223fe8d0a0e5c4f27ead9083c756cc2"

/-- TokenDetails of main.go (the fields the alert message consumes). -/
structure TokenDetails where
  tokenName : String
  tokenSymbol : String
  isHoneypot : String
  buyTax : String
  sellTax : String
  holderCount : String
  holders : List (String × String)
deriving DecidableEq

/-- Fallback TokenDetails installed when getTokenDetails fails (main.go). -/
def defaultTokenDetails : TokenDetails :=
  { tokenName := "Unknown"
    tokenSymbol := "UNK"
    isHoneypot := "undefined"
    buyTax := "0"
    sellTax := "0"
    holderCount := "0"
    holders := [] }

/-- PriceData of main.go, restricted to the fields the alert consumes. -/
structure PriceData where
  price : String
  mcap : Int
deriving DecidableEq

/-- Fallback PriceData installed when getPriceData fails (main.go). -/
def defaultPriceData : PriceData := { price := "0", mcap := 0 }

/-- A fetched Ethereum transaction as seen by processLPBurn: the pending
flag from TransactionByHash, the optional recipient (tx.To is nil for
contract-creation transactions) and the raw call data bytes. -/
structure GoTx where
  pending : Bool
  toAddr : Option Addr
  data : List Nat

/-- A big.Float value arising in the pipeline: finite (exact rational) or
the infinity produced by big.Float.Quo on x/0 with x not zero. -/
inductive BF where
  | fin (q : ℚ)
  | inf
deriving DecidableEq

/-- big.Float.Quo of nonnegative operands: none models the ErrNaN panic on
0/0, inf models x/0 for x not zero, otherwise the exact quotient. -/
def bigQuo (x y : ℚ) : Option BF :=
  if y = 0 then (if x = 0 then none else some BF.inf) else some (BF.fin (x / y))

/-- Multiplication by big.NewFloat(100), as applied to both percentages. -/
def BF.mul100 : BF → BF
  | BF.fin q => BF.fin (q * 100)
  | BF.inf => BF.inf

/-- Burn percentage of processLPBurn: Quo(supply/1e18, burned/1e18) then
Mul 100, over the raw LP supply S and raw burned amount B. -/
def burnPercentage (S B : Nat) : Option BF :=
  (bigQuo ((S : ℚ) / 10 ^ 18) ((B : ℚ) / 10 ^ 18)).map BF.mul100

/-- Clog percentage of processLPBurn: with divisor 10^d, the quotient
Quo(balance/divisor, supply/divisor) then Mul 100. -/
def clogPercentage (d T Hb : Nat) : Option BF :=
  (bigQuo ((Hb : ℚ) / 10 ^ d) ((T : ℚ) / 10 ^ d)).map BF.mul100

/-- The metrics stage of processLPBurn for the underlying token: each
failed chain read falls back to its documented default (supply 0,
decimals 18, balance 0), then the normalized holding and the clog
percentage are computed.  none models the ErrNaN panic of Quo(0, 0). -/
def clogMetrics (supplyRes decimalsRes balanceRes : Except String Nat) :
    Option (ℚ × BF) :=
  let tokenSupply : Nat := match supplyRes with
    | Except.ok s => s
    | Except.error _ => 0
  let tokenDecimals : Nat := match decimalsRes with
    | Except.ok d => d
    | Except.error _ => 18
  let tokenBalance : Nat := match balanceRes with
    | Except.ok b => b
    | Except.error _ => 0
  let tokenHolding : ℚ := (tokenBalance : ℚ) / 10 ^ tokenDecimals
  (clogPercentage tokenDecimals tokenSupply tokenBalance).map
    (fun pct => (tokenHolding, pct))

/-- Underlying-token choice of processLPBurn: token1 when token0 is the
wrapped native asset, token0 otherwise. -/
def selectToken (t0 t1 : Addr) : Addr :=
  if strToLower t0 = WETH_ADDR then t1 else t0

/-- Numeric value of a digit list, most significant first. -/
def digitsVal (cs : List Char) : Nat :=
  cs.foldl (fun a c => 10 * a + (c.toNat - 48)) 0

/-- A nonempty all-digit run, as required by Go numeric literals. -/
def parseDigits (cs : List Char) : Option Nat :=
  if cs ≠ [] ∧ cs.all Char.isDigit then some (digitsVal cs) else none

/-- Decimal mantissa of strconv.ParseFloat: digits with at most one dot
and at least one digit overall. -/
def parseMantissa (cs : List Char) : Option ℚ :=
  match cs.splitOn '.' with
  | [ip] => (parseDigits ip).map (fun n => (n : ℚ))
  | [ip, fp] =>
    if (ip ++ fp) ≠ [] ∧ (ip ++ fp).all Char.isDigit then
      some ((digitsVal ip : ℚ) + (digitsVal fp : ℚ) / 10 ^ fp.length)
    else none
  | _ => none

/-- Optionally signed nonempty digit run (the exponent of a float). -/
def parseSignedInt (cs : List Char) : Option Int :=
  match cs with
  | '+' :: r => (parseDigits r).map (fun n => (n : Int))
  | '-' :: r => (parseDigits r).map (fun n => -(n : Int))
  | r => (parseDigits r).map (fun n => (n : Int))

/-- Modelled from the spec: strconv.ParseFloat of the Go standard library
is not part of src.  Embedded as an exact-rational parser of the decimal
grammar sign, digits, optional fraction, optional exponent; the special
forms inf and nan, hexadecimal floats and digit-separator underscores are
outside every input the claims touch and are rejected here. -/
def goParseFloat (s : String) : Option ℚ :=
  let body := fun (l : List Char) =>
    match l.splitOn 'e' with
    | [m] => parseMantissa m
    | [m, ex] =>
      match parseMantissa m, parseSignedInt ex with
      | some mv, some ev => some (mv * (10 : ℚ) ^ ev)
      | _, _ => none
    | _ => none
  match s.data.map Char.toLower with
  | '+' :: r => body r
  | '-' :: r => (body r).map Neg.neg
  | r => body r

/-- Rendering of a rational with one decimal digit, modelling the Go verb
applied to the tax figure (the sub-ulp rounding of the binary double is
immaterial at this precision). -/
def fmtF1 (q : ℚ) : String :=
  let n : Int := round (q * 10)
  (if n < 0 then "-" else "") ++ toString (n.natAbs / 10) ++ "." ++ toString (n.natAbs % 10)

/-- Sentinel text shown for an unknown tax or honeypot flag; the yellow
square emoji appended in the source is abstracted away. -/
def unknownSentinel : String := "Unknown"

/-- Buy/sell tax rendering of processLPBurn: the sentinel unless the tax
string is nonempty, differs from "0" and parses, in which case the parsed
value times 100 is shown with one decimal and a percent sign. -/
def renderTax (s : String) : String :=
  if s ≠ "" ∧ s ≠ "0" then
    match goParseFloat s with
    | some tax => fmtF1 (tax * 100) ++ "%"
    | none => unknownSentinel
  else unknownSentinel

/-- Honeypot field rendering of processLPBurn (emojis abstracted). -/
def honeypotText (s : String) : String :=
  if s = "0" then "False" else if s = "1" then "True" else unknownSentinel

/-- One outbound call of the pipeline, recorded in order of issue. -/
inductive RPC where
  | txByHash
  | nameOf (a : Addr)
  | totalSupply (a : Addr)
  | token0 (a : Addr)
  | token1 (a : Addr)
  | decimals (a : Addr)
  | balanceOf (t h : Addr)
  | decodeTransfer
  | httpDetails (a : Addr)
  | httpPrice (a : Addr)
  | telegram
deriving DecidableEq

/-- Oracle for every fallible collaborator of processLPBurn: the
transaction fetch, the six contract reads, the ABI decode of the transfer
arguments, the two HTTP enrichment calls and the Telegram delivery. -/
structure Env where
  txRes : Except String GoTx
  nameOf : Addr → Except String String
  supplyOf : Addr → Except String Nat
  decimalsOf : Addr → Except String Nat
  balanceOf : Addr → Addr → Except String Nat
  token0Of : Addr → Except String Addr
  token1Of : Addr → Except String Addr
  decodeTransfer : List Nat → Except String (Addr × Nat)
  detailsOf : Addr → Except String TokenDetails
  priceOf : Addr → Except String PriceData
  telegramRes : Except String Unit

/-- The data of the alert message assembled by processLPBurn (link/URL
boilerplate omitted; every computed field is kept). -/
structure Alert where
  tokenContract : Addr
  tokenName : String
  tokenSymbol : String
  mcap : Int
  burned : ℚ
  burnPct : BF
  honeypot : String
  buyTax : String
  sellTax : String
  clogged : ℚ
  clogPct : BF
  holderCount : String
  holders : List (String × String)
deriving DecidableEq

/-- Result of one processLPBurn run: an alert handed to Telegram, an
error return, or a runtime crash (nil dereference or big.Float ErrNaN). -/
inductive Outcome where
  | sent (a : Alert)
  | err (e : String)
  | crash
deriving DecidableEq

/-- processLPBurn of main.go: fetch the transaction, check the transfer
selector, confirm a Uniswap pool name, decode the transfer arguments,
require the dead recipient, compute the burn percentage, select the
underlying token, gather best-effort enrichment and metrics, and send the
alert.  Returns the outcome with the trace of outbound calls. -/
def processLPBurn (env : Env) : Outcome × List RPC :=
  let t0 : List RPC := [RPC.txByHash]
  match env.txRes with
  | Except.error e => (Outcome.err ("failed to get transaction: " ++ e), t0)
  | Except.ok tx =>
  if tx.pending then (Outcome.err "transaction is still pending", t0)
  else if tx.data.length < 4 then (Outcome.err "transaction data too short", t0)
  else
  let sel := hexOfBytes (tx.data.take 4)
  if sel ≠ "a9059cbb" then (Outcome.err ("not a transfer function call: " ++ sel), t0)
  else
  match tx.toAddr with
  | none => (Outcome.crash, t0)
  | some lpAddress =>
  let t1 := t0 ++ [RPC.nameOf lpAddress]
  match env.nameOf lpAddress with
  | Except.error e => (Outcome.err ("failed to get LP name: " ++ e), t1)
  | Except.ok lpName =>
  if !(strContains lpName "Uniswap") then (Outcome.err ("not a Uniswap LP: " ++ lpName), t1)
  else
  let t2 := t1 ++ [RPC.decodeTransfer]
  match env.decodeTransfer (tx.data.drop 4) with
  | Except.error e => (Outcome.err ("failed to decode transfer data: " ++ e), t2)
  | Except.ok (toA, value) =>
  if strToLower toA ≠ DEAD_ADDR then
    (Outcome.err ("tokens not sent to dead address: " ++ toA), t2)
  else
  let t3 := t2 ++ [RPC.totalSupply lpAddress]
  match env.supplyOf lpAddress with
  | Except.error e => (Outcome.err ("failed to get LP supply: " ++ e), t3)
  | Except.ok lpSupply =>
  let burnedLP : ℚ := (value : ℚ) / 10 ^ 18
  match burnPercentage lpSupply value with
  | none => (Outcome.crash, t3)
  | some percentage =>
  let t4 := t3 ++ [RPC.token0 lpAddress]
  match env.token0Of lpAddress with
  | Except.error e => (Outcome.err ("failed to get token0: " ++ e), t4)
  | Except.ok tok0 =>
  let t5 := t4 ++ [RPC.token1 lpAddress]
  match env.token1Of lpAddress with
  | Except.error e => (Outcome.err ("failed to get token1: " ++ e), t5)
  | Except.ok tok1 =>
  let tokenContract := selectToken tok0 tok1
  let t6 := t5 ++ [RPC.httpDetails tokenContract]
  let details := match env.detailsOf tokenContract with
    | Except.ok d => d
    | Except.error _ => defaultTokenDetails
  let t7 := t6 ++ [RPC.httpPrice lpAddress]
  let priceData := match env.priceOf lpAddress with
    | Except.ok p => p
    | Except.error _ => defaultPriceData
  let t8 := t7 ++ [RPC.totalSupply tokenContract, RPC.decimals tokenContract,
    RPC.balanceOf tokenContract tokenContract]
  match clogMetrics (env.supplyOf tokenContract) (env.decimalsOf tokenContract)
      (env.balanceOf tokenContract tokenContract) with
  | none => (Outcome.crash, t8)
  | some clogPair =>
  let alert : Alert :=
    { tokenContract := tokenContract
      tokenName := details.tokenName
      tokenSymbol := details.tokenSymbol
      mcap := priceData.mcap
      burned := burnedLP
      burnPct := percentage
      honeypot := honeypotText details.isHoneypot
      buyTax := renderTax details.buyTax
      sellTax := renderTax details.sellTax
      clogged := clogPair.1
      clogPct := clogPair.2
      holderCount := details.holderCount
      holders := details.holders }
  let t9 := t8 ++ [RPC.telegram]
  match env.telegramRes with
  | Except.ok _ => (Outcome.sent alert, t9)
  | Except.error e => (Outcome.err ("telegram API error: " ++ e), t9)

/-- One arrival in the watchLogs select loop: a subscription-channel error
or a log event whose processing behaves as the given oracle dictates. -/
inductive LoopEvent where
  | subErr
  | logEv (env : Env)

/-- Final state of a watchLogs run over a finite event prefix. -/
inductive LoopEnd where
  | running
  | subTerm
  | crashed
deriving DecidableEq

/-- watchLogs of main.go over a finite prefix of channel arrivals: a
subscription error returns from the loop; a log event is processed by
processLPBurn, whose error return is logged and the loop continues; a
runtime crash in processLPBurn unwinds the loop. -/
def watchLogs : List LoopEvent → List Outcome × LoopEnd
  | [] => ([], LoopEnd.running)
  | LoopEvent.subErr :: _ => ([], LoopEnd.subTerm)
  | LoopEvent.logEv env :: rest =>
    let o := (processLPBurn env).1
    if o = Outcome.crash then ([o], LoopEnd.crashed)
    else
      let r := watchLogs rest
      (o :: r.1, r.2)

/-- Sample pool address used by the concrete scenarios below. -/
def lpAddr : Addr := "0xpool"

/-- Sample non-WETH underlying-token address for the concrete scenarios. -/
def undAddr : Addr := "0xund"

/-- Base oracle in which every collaborator fails; the concrete scenarios
override individual fields. -/
def envBase : Env :=
  { txRes := Except.error "boom"
    nameOf := fun _ => Except.error "no"
    supplyOf := fun _ => Except.error "no"
    decimalsOf := fun _ => Except.error "no"
    balanceOf := fun _ _ => Except.error "no"
    token0Of := fun _ => Except.error "no"
    token1Of := fun _ => Except.error "no"
    decodeTransfer := fun _ => Except.error "no"
    detailsOf := fun _ => Except.error "no"
    priceOf := fun _ => Except.error "no"
    telegramRes := Except.ok () }

/-- A mined transfer transaction to the pool: call data is exactly the
transfer selector bytes a9 05 9c bb. -/
def txGood : GoTx :=
  { pending := false, toAddr := some lpAddr, data := [169, 5, 156, 187] }

/-- A mined contract-creation transaction (recipient nil) whose init code
happens to begin with the transfer selector. -/
def txNilTo : GoTx := { pending := false, toAddr := none, data := [169, 5, 156, 187] }

/-- A mined transaction whose call data is shorter than four bytes. -/
def txShort : GoTx := { pending := false, toAddr := some lpAddr, data := [1, 2] }

/-- Scenario for the nil-recipient dereference: the fetched transaction has
no recipient. -/
def envNilTo : Env := { envBase with txRes := Except.ok txNilTo }

/-- Scenario with too-short call data. -/
def envShort : Env := { envBase with txRes := Except.ok txShort }

/-- Scenario in which the pool name does not contain Uniswap. -/
def envNotUni : Env :=
  { envBase with
    txRes := Except.ok txGood
    nameOf := fun _ => Except.ok "PancakePair" }

/-- Scenario in which the decoded recipient is the dead address written
with mixed-case hex letters. -/
def envDeadMixed : Env :=
  { envBase with
    txRes := Except.ok txGood
    nameOf := fun _ => Except.ok "Uniswap V2"
    decodeTransfer := fun _ =>
      Except.ok ("0x000000000000000000000000000000000000DeaD", 5) }

/-- Confirmed-burn scenario in which only the balanceOf read of the
underlying token fails: the supply reads succeed everywhere. -/
def envGrace : Env :=
  { envBase with
    txRes := Except.ok txGood
    nameOf := fun _ => Except.ok "Uniswap V2"
    decodeTransfer := fun _ => Except.ok (DEAD_ADDR, 5)
    supplyOf := fun a => if a = lpAddr then Except.ok 7 else Except.ok 9
    token0Of := fun _ => Except.ok WETH_ADDR
    token1Of := fun _ => Except.ok undAddr
    balanceOf := fun _ _ => Except.error "balance call failed" }

/-- Confirmed-burn scenario in which both the totalSupply read and the
balanceOf read of the underlying token fail. -/
def envMetricsPanic : Env :=
  { envBase with
    txRes := Except.ok txGood
    nameOf := fun _ => Except.ok "Uniswap V2"
    decodeTransfer := fun _ => Except.ok (DEAD_ADDR, 5)
    supplyOf := fun a => if a = lpAddr then Except.ok 7 else Except.error "supply call failed"
    token0Of := fun _ => Except.ok WETH_ADDR
    token1Of := fun _ => Except.ok undAddr
    balanceOf := fun _ _ => Except.error "balance call failed" }

/-- Lowering the dead-address constant is the identity: it is stored in
lower case. -/
theorem strToLower_dead : strToLower DEAD_ADDR = DEAD_ADDR := by decide

/-- Lowering the WETH constant is the identity: it is stored in lower
case. -/
theorem strToLower_weth : strToLower WETH_ADDR = WETH_ADDR := by decide

/-- With a positive burned amount the burn-percentage quotient is finite
and equals the exact rational formula of the code. -/
theorem burnPercentage_of_pos (S B : Nat) (hB : 0 < B) :
    burnPercentage S B = some (BF.fin ((S : ℚ) / 10 ^ 18 / ((B : ℚ) / 10 ^ 18) * 100)) := by
  have hq : ((B : ℚ) / 10 ^ 18) ≠ 0 := by
    have h1 : (0 : ℚ) < (B : ℚ) := by exact_mod_cast hB
    have h2 : (0 : ℚ) < 10 ^ 18 := by positivity
    exact ne_of_gt (div_pos h1 h2)
  unfold burnPercentage bigQuo
  rw [if_neg hq]
  rfl

/-- With a positive LP supply the burn-percentage computation never
raises ErrNaN, whatever the burned amount. -/
theorem burnPercentage_isSome (S B : Nat) (hS : 0 < S) :
    ∃ p, burnPercentage S B = some p := by
  by_cases hB : 0 < B
  · exact ⟨_, burnPercentage_of_pos S B hB⟩
  · have hB0 : B = 0 := by omega
    subst hB0
    have hq : ((S : ℚ) / 10 ^ 18) ≠ 0 := by
      have h1 : (0 : ℚ) < (S : ℚ) := by exact_mod_cast hS
      have h2 : (0 : ℚ) < 10 ^ 18 := by positivity
      exact ne_of_gt (div_pos h1 h2)
    refine ⟨BF.inf, ?_⟩
    unfold burnPercentage bigQuo
    rw [if_pos (by norm_num), if_neg hq]
    rfl

/-- With a positive token supply the clog-percentage quotient is finite
and equals the exact rational formula of the code. -/
theorem clogPercentage_of_pos (d T Hb : Nat) (hT : 0 < T) :
    clogPercentage d T Hb
      = some (BF.fin ((Hb : ℚ) / 10 ^ d / ((T : ℚ) / 10 ^ d) * 100)) := by
  have hq : ((T : ℚ) / 10 ^ d) ≠ 0 := by
    have h1 : (0 : ℚ) < (T : ℚ) := by exact_mod_cast hT
    have h2 : (0 : ℚ) < 10 ^ d := by positivity
    exact ne_of_gt (div_pos h1 h2)
  unfold clogPercentage bigQuo
  rw [if_neg hq]
  rfl

/-- With a successful, positive supply read the metrics stage never
raises ErrNaN, whatever the decimals and balance reads do. -/
theorem clogMetrics_isSome (T : Nat) (hT : 0 < T) (dRes bRes : Except String Nat) :
    ∃ pr, clogMetrics (Except.ok T) dRes bRes = some pr := by
  rcases dRes with eD | d <;> rcases bRes with eB | b <;>
    simp [clogMetrics, clogPercentage_of_pos _ _ _ hT]

/-- With a successful, positive supply read and a failed balance read the
metrics stage yields the zero sentinels. -/
theorem clogMetrics_balance_err (T : Nat) (hT : 0 < T) (dRes : Except String Nat) (e : String) :
    clogMetrics (Except.ok T) dRes (Except.error e) = some (0, BF.fin 0) := by
  rcases dRes with eD | d <;>
    simp [clogMetrics, clogPercentage_of_pos _ _ _ hT]

/-- When both the supply read and the balance read fail, the metrics
stage evaluates Quo(0, 0) and raises ErrNaN. -/
theorem clogMetrics_err_err (s t : String) (dRes : Except String Nat) :
    clogMetrics (Except.error s) dRes (Except.error t) = none := by
  rcases dRes with eD | d <;>
    simp [clogMetrics, clogPercentage, bigQuo]

/-- Claim C1, counterexample: at S = 1000000e18 and B = 10000e18 the
computed burn percentage is not the 9900.0 stated by the specification. -/
theorem C1_counterexample :
    burnPercentage (1000000 * 10 ^ 18) (10000 * 10 ^ 18) ≠ some (BF.fin 9900) := by
  rw [burnPercentage_of_pos _ _ (by norm_num)]
  intro h
  have h2 : ((1000000 * 10 ^ 18 : ℕ) : ℚ) / 10 ^ 18
      / (((10000 * 10 ^ 18 : ℕ) : ℚ) / 10 ^ 18) * 100 = 9900 := by
    injection h with h3
    injection h3
  norm_num at h2

/-- Claim C1 as amended: for every LP supply S and burned amount B with
B positive, the burn percentage computed by processLPBurn equals
(S/1e18) / (B/1e18) * 100 exactly in the rational model (hence within
every floating-point tolerance), and at S = 1000000e18, B = 10000e18 the
computed percentage is 10000.0, not the 9900.0 of the specification
example. -/
theorem C1_burn_percentage_amended (S B : Nat) (hB : 0 < B) :
    burnPercentage S B = some (BF.fin ((S : ℚ) / 10 ^ 18 / ((B : ℚ) / 10 ^ 18) * 100))
    ∧ burnPercentage (1000000 * 10 ^ 18) (10000 * 10 ^ 18) = some (BF.fin 10000) := by
  refine ⟨burnPercentage_of_pos S B hB, ?_⟩
  rw [burnPercentage_of_pos _ _ (by norm_num)]
  norm_num

/-- Witness for C1: the amended claim evaluated at the concrete example
of the specification. -/
theorem C1_burn_percentage_amended_witness :
    burnPercentage (1000000 * 10 ^ 18) (10000 * 10 ^ 18)
      = some (BF.fin (((1000000 * 10 ^ 18 : ℕ) : ℚ) / 10 ^ 18
          / (((10000 * 10 ^ 18 : ℕ) : ℚ) / 10 ^ 18) * 100))
    ∧ burnPercentage (1000000 * 10 ^ 18) (10000 * 10 ^ 18) = some (BF.fin 10000) :=
  C1_burn_percentage_amended (1000000 * 10 ^ 18) (10000 * 10 ^ 18) (by decide)

/-- Claim C2, counterexample: in a confirmed candidate burn where both the
underlying-token totalSupply read and the balanceOf read fail, the metrics
stage divides zero by zero, big.Float raises ErrNaN and the run aborts
with no alert emitted — refuting the claim that the alert is still emitted
for every combination of metric-stage failures. -/
theorem C2_counterexample :
    (processLPBurn envMetricsPanic).1 = Outcome.crash
    ∧ RPC.telegram ∉ (processLPBurn envMetricsPanic).2 := by
  obtain ⟨p, hB⟩ := burnPercentage_isSome 7 5 (by norm_num)
  have hx : hexOfBytes [169, 5, 156, 187] = "a9059cbb" := by decide
  have hu : strContains "Uniswap V2" "Uniswap" = true := by decide
  have hne : undAddr ≠ lpAddr := by decide
  have hselT : selectToken WETH_ADDR undAddr = undAddr := by decide
  have hCM : clogMetrics (Except.error "supply call failed") (Except.error "no")
      (Except.error "balance call failed") = none :=
    clogMetrics_err_err _ _ _
  constructor <;>
    simp [processLPBurn, envMetricsPanic, envBase, txGood, hB, hx, hu, hne,
      strToLower_dead, hselT, hCM]

/-- Claim C2 as amended: for a confirmed candidate burn whose
underlying-token totalSupply read succeeds with a positive value, every
combination of decimals and balanceOf failures degrades gracefully — the
alert is still handed to Telegram, and when the balanceOf read failed the
clogged amount and clog percentage are the zero sentinels.  (When the
totalSupply read fails the divisor is zero: the percentage is an infinity
for a nonzero defaulted balance and the stage panics, aborting the
pipeline, when the defaulted balance is zero as well, as the
counterexample shows.) -/
theorem C2_metrics_degrade_amended (env : Env) (tx : GoTx) (lp : Addr) (nm : String)
    (toA : Addr) (v S T : Nat) (a0 a1 : Addr)
    (htx : env.txRes = Except.ok tx) (hp : tx.pending = false)
    (hlen : ¬ tx.data.length < 4)
    (hsel : hexOfBytes (tx.data.take 4) = "a9059cbb")
    (hto : tx.toAddr = some lp)
    (hnm : env.nameOf lp = Except.ok nm)
    (huni : strContains nm "Uniswap" = true)
    (hdec : env.decodeTransfer (tx.data.drop 4) = Except.ok (toA, v))
    (hdead : strToLower toA = DEAD_ADDR)
    (hS : env.supplyOf lp = Except.ok S) (hSpos : 0 < S)
    (h0 : env.token0Of lp = Except.ok a0)
    (h1 : env.token1Of lp = Except.ok a1)
    (hT : env.supplyOf (selectToken a0 a1) = Except.ok T) (hTpos : 0 < T)
    (htg : env.telegramRes = Except.ok ()) :
    ∃ a, (processLPBurn env).1 = Outcome.sent a
      ∧ RPC.telegram ∈ (processLPBurn env).2
      ∧ (∀ e, env.balanceOf (selectToken a0 a1) (selectToken a0 a1) = Except.error e →
          a.clogged = 0 ∧ a.clogPct = BF.fin 0) := by
  obtain ⟨p, hB⟩ := burnPercentage_isSome S v hSpos
  obtain ⟨pr, hC⟩ := clogMetrics_isSome T hTpos (env.decimalsOf (selectToken a0 a1))
    (env.balanceOf (selectToken a0 a1) (selectToken a0 a1))
  rw [← hT] at hC
  have hsent : ∃ a, (processLPBurn env).1 = Outcome.sent a
      ∧ a.clogged = pr.1 ∧ a.clogPct = pr.2 := by
    simp [processLPBurn, htx, hp, hlen, hsel, hto, hnm, huni, hdec, hdead, hS, hB,
      h0, h1, hC, htg]
  have hmem : RPC.telegram ∈ (processLPBurn env).2 := by
    simp [processLPBurn, htx, hp, hlen, hsel, hto, hnm, huni, hdec, hdead, hS, hB,
      h0, h1, hC, htg]
  obtain ⟨a, ha, hclog, hpct⟩ := hsent
  refine ⟨a, ha, hmem, ?_⟩
  intro e hbal
  rw [hT, hbal, clogMetrics_balance_err T hTpos _ e] at hC
  have hpr : pr = (0, BF.fin 0) := by
    cases hC
    rfl
  rw [hclog, hpct, hpr]
  exact ⟨rfl, rfl⟩

/-- Witness for C2: the amended claim evaluated in the scenario where only
the balanceOf read fails. -/
theorem C2_metrics_degrade_amended_witness :
    ∃ a, (processLPBurn envGrace).1 = Outcome.sent a
      ∧ RPC.telegram ∈ (processLPBurn envGrace).2
      ∧ (∀ e, envGrace.balanceOf (selectToken WETH_ADDR undAddr) (selectToken WETH_ADDR undAddr)
            = Except.error e → a.clogged = 0 ∧ a.clogPct = BF.fin 0) :=
  C2_metrics_degrade_amended envGrace txGood lpAddr "Uniswap V2" DEAD_ADDR 5 7 9 WETH_ADDR undAddr
    rfl rfl (by decide) (by decide) rfl rfl (by decide) rfl (by decide)
    rfl (by decide) rfl rfl rfl (by decide) rfl

/-- Claim C3: once a decoded transfer recipient is in hand, the recipient
check of processLPBurn passes exactly when the recipient equals the dead
address case-insensitively (so any hex-letter casing of the recipient is
accepted), and a recipient differing case-insensitively from the dead
address makes the verifier return the not-a-burn error. -/
theorem C3_dead_address_check (env : Env) (tx : GoTx) (lp : Addr) (nm : String)
    (toA : Addr) (v : Nat)
    (htx : env.txRes = Except.ok tx) (hp : tx.pending = false)
    (hlen : ¬ tx.data.length < 4)
    (hsel : hexOfBytes (tx.data.take 4) = "a9059cbb")
    (hto : tx.toAddr = some lp)
    (hnm : env.nameOf lp = Except.ok nm)
    (huni : strContains nm "Uniswap" = true)
    (hdec : env.decodeTransfer (tx.data.drop 4) = Except.ok (toA, v)) :
    (strToLower toA = strToLower DEAD_ADDR ↔
      RPC.totalSupply lp ∈ (processLPBurn env).2)
    ∧ (strToLower toA ≠ strToLower DEAD_ADDR →
        (processLPBurn env).1 = Outcome.err ("tokens not sent to dead address: " ++ toA)) := by
  rw [strToLower_dead]
  by_cases hd : strToLower toA = DEAD_ADDR
  · refine ⟨⟨fun _ => ?_, fun _ => hd⟩, fun hc => absurd hd hc⟩
    rcases hS : env.supplyOf lp with eS | S
    · simp [processLPBurn, htx, hp, hlen, hsel, hto, hnm, huni, hdec, hd, hS]
    · rcases hB : burnPercentage S v with _ | p
      · simp [processLPBurn, htx, hp, hlen, hsel, hto, hnm, huni, hdec, hd, hS, hB]
      · rcases h0 : env.token0Of lp with e0 | a0
        · simp [processLPBurn, htx, hp, hlen, hsel, hto, hnm, huni, hdec, hd, hS, hB, h0]
        · rcases h1 : env.token1Of lp with e1 | a1
          · simp [processLPBurn, htx, hp, hlen, hsel, hto, hnm, huni, hdec, hd, hS, hB, h0, h1]
          · rcases hC : clogMetrics (env.supplyOf (selectToken a0 a1))
                (env.decimalsOf (selectToken a0 a1))
                (env.balanceOf (selectToken a0 a1) (selectToken a0 a1)) with _ | pr
            · simp [processLPBurn, htx, hp, hlen, hsel, hto, hnm, huni, hdec, hd, hS, hB,
                h0, h1, hC]
            · rcases hT : env.telegramRes with eT | u <;>
                simp [processLPBurn, htx, hp, hlen, hsel, hto, hnm, huni, hdec, hd, hS, hB,
                  h0, h1, hC, hT]
  · refine ⟨⟨fun hc => absurd hc hd, fun hmem => ?_⟩, fun _ => ?_⟩
    · simp [processLPBurn, htx, hp, hlen, hsel, hto, hnm, huni, hdec, hd] at hmem
    · simp [processLPBurn, htx, hp, hlen, hsel, hto, hnm, huni, hdec, hd]

/-- Witness for C3: a mixed-case dead-address recipient passes the check
and the pipeline proceeds to the LP supply read. -/
theorem C3_dead_address_check_witness :
    (strToLower "0x000000000000000000000000000000000000DeaD" = strToLower DEAD_ADDR ↔
      RPC.totalSupply lpAddr ∈ (processLPBurn envDeadMixed).2)
    ∧ (strToLower "0x000000000000000000000000000000000000DeaD" ≠ strToLower DEAD_ADDR →
        (processLPBurn envDeadMixed).1
          = Outcome.err ("tokens not sent to dead address: "
              ++ "0x000000000000000000000000000000000000DeaD")) :=
  C3_dead_address_check envDeadMixed txGood lpAddr "Uniswap V2"
    "0x000000000000000000000000000000000000DeaD" 5
    rfl rfl (by decide) (by decide) rfl rfl (by decide) rfl

/-- Claim C4: for every fetched transaction whose call data is shorter
than 4 bytes or whose first 4 bytes differ from the transfer selector
a9059cbb, processLPBurn returns a not-a-burn error and its outbound-call
trace is just the transaction fetch — no name, totalSupply, token0,
token1 or balanceOf call is issued. -/
theorem C4_selector_guard (env : Env) (tx : GoTx)
    (htx : env.txRes = Except.ok tx) (hp : tx.pending = false)
    (hbad : tx.data.length < 4 ∨ hexOfBytes (tx.data.take 4) ≠ "a9059cbb") :
    (∃ e, (processLPBurn env).1 = Outcome.err e)
    ∧ (processLPBurn env).2 = [RPC.txByHash] := by
  rcases hbad with hlt | hsel
  · refine ⟨⟨"transaction data too short", ?_⟩, ?_⟩ <;>
      simp [processLPBurn, htx, hp, hlt]
  · by_cases hlt : tx.data.length < 4
    · refine ⟨⟨"transaction data too short", ?_⟩, ?_⟩ <;>
        simp [processLPBurn, htx, hp, hlt]
    · refine ⟨⟨"not a transfer function call: " ++ hexOfBytes (tx.data.take 4), ?_⟩, ?_⟩ <;>
        simp [processLPBurn, htx, hp, hlt, hsel]

/-- Witness for C4: a two-byte call data is rejected with no call after
the transaction fetch. -/
theorem C4_selector_guard_witness :
    (∃ e, (processLPBurn envShort).1 = Outcome.err e)
    ∧ (processLPBurn envShort).2 = [RPC.txByHash] :=
  C4_selector_guard envShort txShort rfl rfl (Or.inl (by decide))

/-- Claim C5: when the pool name does not contain the substring Uniswap,
processLPBurn returns the not-a-burn error before decoding the transfer
call data — the trace stops at the name call and contains no decode
step. -/
theorem C5_uniswap_name_guard (env : Env) (tx : GoTx) (lp : Addr) (nm : String)
    (htx : env.txRes = Except.ok tx) (hp : tx.pending = false)
    (hlen : ¬ tx.data.length < 4)
    (hsel : hexOfBytes (tx.data.take 4) = "a9059cbb")
    (hto : tx.toAddr = some lp)
    (hnm : env.nameOf lp = Except.ok nm)
    (huni : strContains nm "Uniswap" = false) :
    (processLPBurn env).1 = Outcome.err ("not a Uniswap LP: " ++ nm)
    ∧ (processLPBurn env).2 = [RPC.txByHash, RPC.nameOf lp]
    ∧ RPC.decodeTransfer ∉ (processLPBurn env).2 := by
  refine ⟨?_, ?_, ?_⟩ <;> simp [processLPBurn, htx, hp, hlen, hsel, hto, hnm, huni]

/-- Witness for C5: a PancakePair name is rejected before any decode. -/
theorem C5_uniswap_name_guard_witness :
    (processLPBurn envNotUni).1 = Outcome.err ("not a Uniswap LP: " ++ "PancakePair")
    ∧ (processLPBurn envNotUni).2 = [RPC.txByHash, RPC.nameOf lpAddr]
    ∧ RPC.decodeTransfer ∉ (processLPBurn envNotUni).2 :=
  C5_uniswap_name_guard envNotUni txGood lpAddr "PancakePair"
    rfl rfl (by decide) (by decide) rfl rfl (by decide)

/-- Claim C6: when token0 equals the wrapped-native-asset address
case-insensitively the selected underlying token is token1, and when
token1 equals it while token0 does not, the selected token is token0. -/
theorem C6_select_underlying (t0 t1 : Addr) :
    (strToLower t0 = strToLower WETH_ADDR → selectToken t0 t1 = t1)
    ∧ (strToLower t1 = strToLower WETH_ADDR → strToLower t0 ≠ strToLower WETH_ADDR →
        selectToken t0 t1 = t0) := by
  rw [strToLower_weth]
  constructor
  · intro h
    simp [selectToken, h]
  · intro h1 h2
    simp [selectToken, h2]

/-- Witness for C6: the checksummed WETH address in slot 0 selects the
other token, and in slot 1 leaves token0 selected. -/
theorem C6_select_underlying_witness :
    selectToken "0xC02aaA39b223FE8D0A0e5C4F27eAD9083C756Cc2" "0xAbC" = "0xAbC"
    ∧ selectToken "0xAbC" "0xC02aaA39b223FE8D0A0e5C4F27eAD9083C756Cc2" = "0xAbC" :=
  ⟨(C6_select_underlying "0xC02aaA39b223FE8D0A0e5C4F27eAD9083C756Cc2" "0xAbC").1 (by decide),
   (C6_select_underlying "0xAbC" "0xC02aaA39b223FE8D0A0e5C4F27eAD9083C756Cc2").2
     (by decide) (by decide)⟩

/-- Claim C7: for every decimals d, positive total supply T and
self-held balance Hb, the clog percentage computed by processLPBurn
equals (Hb/10^d) / (T/10^d) * 100 exactly in the rational model, and at
d = 18, T = 1000000e18, Hb = 50000e18 it is 5.0. -/
theorem C7_clog_percentage (d T Hb : Nat) (hT : 0 < T) :
    clogPercentage d T Hb = some (BF.fin ((Hb : ℚ) / 10 ^ d / ((T : ℚ) / 10 ^ d) * 100))
    ∧ clogPercentage 18 (1000000 * 10 ^ 18) (50000 * 10 ^ 18) = some (BF.fin 5) := by
  refine ⟨clogPercentage_of_pos d T Hb hT, ?_⟩
  rw [clogPercentage_of_pos _ _ _ (by norm_num)]
  norm_num

/-- Witness for C7: the claim evaluated at the concrete example of the
specification. -/
theorem C7_clog_percentage_witness :
    clogPercentage 18 (1000000 * 10 ^ 18) (50000 * 10 ^ 18)
      = some (BF.fin (((50000 * 10 ^ 18 : ℕ) : ℚ) / 10 ^ 18
          / (((1000000 * 10 ^ 18 : ℕ) : ℚ) / 10 ^ 18) * 100))
    ∧ clogPercentage 18 (1000000 * 10 ^ 18) (50000 * 10 ^ 18) = some (BF.fin 5) :=
  C7_clog_percentage 18 (1000000 * 10 ^ 18) (50000 * 10 ^ 18) (by decide)

/-- Claim C8: in the watch loop, the first subscription error terminates
the loop and nothing after it is processed, while events whose
processLPBurn run merely returns an error (no runtime crash) never
terminate the loop: without a subscription error the loop keeps
running. -/
theorem C8_watch_loop (envs : List Env) (ys : List LoopEvent)
    (h : ∀ env ∈ envs, (processLPBurn env).1 ≠ Outcome.crash) :
    watchLogs (envs.map LoopEvent.logEv ++ LoopEvent.subErr :: ys)
      = (envs.map (fun env => (processLPBurn env).1), LoopEnd.subTerm)
    ∧ (watchLogs (envs.map LoopEvent.logEv)).2 = LoopEnd.running := by
  induction envs with
  | nil => exact ⟨rfl, rfl⟩
  | cons e rest ih =>
    have he : (processLPBurn e).1 ≠ Outcome.crash := h e (by simp)
    have ih2 := ih (fun env hm => h env (by simp [hm]))
    constructor
    · simp only [List.map_cons, List.cons_append, watchLogs, if_neg he, List.append_eq]
      rw [ih2.1]
    · simp only [List.map_cons, watchLogs, if_neg he]
      rw [ih2.2]

/-- Witness for C8: one failing log event is processed and logged, the
following subscription error terminates the loop, and the event queued
after it is never processed. -/
theorem C8_watch_loop_witness :
    watchLogs (List.map LoopEvent.logEv [envBase] ++ LoopEvent.subErr :: [LoopEvent.subErr])
      = (List.map (fun env => (processLPBurn env).1) [envBase], LoopEnd.subTerm)
    ∧ (watchLogs (List.map LoopEvent.logEv [envBase])).2 = LoopEnd.running :=
  C8_watch_loop [envBase] [LoopEvent.subErr] (by decide)

/-- Claim C9: a mined contract-creation transaction (nil recipient) whose
init code begins with the transfer selector drives processLPBurn into the
unguarded dereference of tx.To, a runtime crash rather than a not-a-burn
error return, before any contract call is issued. -/
theorem C9_nil_recipient_crash :
    (processLPBurn envNilTo).1 = Outcome.crash
    ∧ (processLPBurn envNilTo).2 = [RPC.txByHash] := by decide

/-- Claim C10: the tax fields of the alert show the Unknown sentinel
whenever the tax string is empty, exactly the string 0, or unparseable —
so a genuinely zero tax is shown as unknown — and show the parsed tax
times 100 with one decimal and a percent sign otherwise. -/
theorem C10_tax_rendering (s : String) :
    ((s = "" ∨ s = "0" ∨ goParseFloat s = none) → renderTax s = unknownSentinel)
    ∧ (∀ q : ℚ, s ≠ "" → s ≠ "0" → goParseFloat s = some q →
        renderTax s = fmtF1 (q * 100) ++ "%") := by
  constructor
  · rintro (h | h | h)
    · simp [renderTax, h]
    · simp [renderTax, h]
    · by_cases h1 : s = "" ∧ s = "0"
      · simp [renderTax, h1.1]
      · unfold renderTax
        by_cases h2 : s ≠ "" ∧ s ≠ "0"
        · rw [if_pos h2, h]
        · rw [if_neg h2]
  · intro q h1 h2 h3
    unfold renderTax
    rw [if_pos ⟨h1, h2⟩, h3]

/-- Witness for C10: the zero tax string renders as the sentinel, a
parseable nonzero tax string renders as a percentage. -/
theorem C10_tax_rendering_witness :
    renderTax "0" = unknownSentinel
    ∧ renderTax "5" = fmtF1 ((5 : ℚ) * 100) ++ "%" :=
  ⟨(C10_tax_rendering "0").1 (Or.inr (Or.inl rfl)),
   (C10_tax_rendering "5").2 5 (by decide) (by decide) (by decide)⟩
